import Mathlib

/-!
Verification development for the `my-ai-stock` analysis pipeline (`app.py`).

The pipeline is shallowly embedded: Python floats are modelled as exact
rationals (`ℚ`), with an explicit extended-value type `EF` capturing the
IEEE special values (`inf`, `-inf`, `nan`) that the pandas RSI computation
can produce through division by zero.  Network providers (quote, history,
news, generative models) are modelled as explicit inputs: the quote
provider supplies `price`, `prev_close`, `currency` and the closing-price
history; the news provider supplies an `Except` value (raised error or
list of headline strings); each generative backend is a function from the
rendered prompt to `Option String` (`none` = the call raised).
-/

/-- Python `t.endswith(s)`: `s` is a suffix of `t`, compared character-wise. -/
def endswith (t s : String) : Bool :=
  s.data.isSuffixOf t.data

/-- Python `s.upper()` (ASCII case mapping, which covers ticker symbols). -/
def pyUpper (s : String) : String :=
  ⟨s.data.map Char.toUpper⟩

/-- Python `s.strip()`: drop whitespace from both ends. -/
def pyStrip (s : String) : String :=
  ⟨((s.data.dropWhile Char.isWhitespace).reverse.dropWhile Char.isWhitespace).reverse⟩

/-- The fixed commodity/crypto membership list of `get_asset_type` (app.py line 29). -/
def commodity_list : List String :=
  [("GC=F"), ("GLD"), ("SI=F"), ("CL=F"), ("BTC-USD")]

/-- `get_asset_type` (app.py lines 26-32): suffix rules first, then the fixed
membership list, else the global default. -/
def get_asset_type (ticker : String) : String :=
  if endswith ticker (".TW") || endswith ticker (".TWO") then "Taiwan Stock"
  else if commodity_list.contains ticker then "Commodity/Crypto"
  else "US Stock/Global"

/-- Extended value: a finite rational, `inf`, `-inf` or `nan`, mirroring the
IEEE special values a numpy float computation can take. -/
inductive EF where
  | fin : ℚ → EF
  | inf : EF
  | neginf : EF
  | nan : EF
deriving DecidableEq

/-- Numpy division `g / l` of two finite values (gains and losses here):
division by zero yields `nan` for `0/0`, otherwise a signed infinity. -/
def EF.divQ (g l : ℚ) : EF :=
  if l = 0 then
    (if g = 0 then .nan else if 0 < g then .inf else .neginf)
  else .fin (g / l)

/-- `1 + rs` on extended values. -/
def EF.onePlus : EF → EF
  | .fin q => .fin (1 + q)
  | .inf => .inf
  | .neginf => .neginf
  | .nan => .nan

/-- `100 / x` on extended values (`100 / inf = 0`, `100 / 0 = inf`). -/
def EF.hundredDiv : EF → EF
  | .fin q => if q = 0 then .inf else .fin (100 / q)
  | .inf => .fin 0
  | .neginf => .fin 0
  | .nan => .nan

/-- `100 - x` on extended values. -/
def EF.hundredSub : EF → EF
  | .fin q => .fin (100 - q)
  | .inf => .neginf
  | .neginf => .inf
  | .nan => .nan

/-- `hist['Close'].diff()` without its leading `NaN`: day-over-day differences
of the close series, oldest first (app.py line 53). -/
def diffs : List ℚ → List ℚ
  | a :: b :: rest => (b - a) :: diffs (b :: rest)
  | _ => []

/-- The gain series `delta.where(delta > 0, 0)` (app.py line 54).  The leading
`NaN` of `diff()` fails the `delta > 0` test, so pandas replaces it by `0`:
hence the explicit leading `0`. -/
def gainSeries (closes : List ℚ) : List ℚ :=
  0 :: (diffs closes).map (fun d => max d 0)

/-- The loss series `(-delta.where(delta < 0, 0))` (app.py line 55), with the
leading `NaN` likewise replaced by `0` before negation. -/
def lossSeries (closes : List ℚ) : List ℚ :=
  0 :: (diffs closes).map (fun d => max (-d) 0)

/-- The trailing 14-element window of a series, as seen by
`rolling(window=14)` at the final index. -/
def last14 (xs : List ℚ) : List ℚ :=
  xs.drop (xs.length - 14)

/-- `gain.rolling(window=14).mean()` evaluated at the final index. -/
def avgGain (closes : List ℚ) : ℚ :=
  (last14 (gainSeries closes)).sum / 14

/-- `loss.rolling(window=14).mean()` evaluated at the final index. -/
def avgLoss (closes : List ℚ) : ℚ :=
  (last14 (lossSeries closes)).sum / 14

/-- `rsi.iloc[-1]` (app.py lines 53-58): `rs = gain/loss`,
`rsi = 100 - 100/(1+rs)`, taken at the final index.  With fewer than 14
closes the rolling mean at the final index is `NaN` (window not yet full),
hence `nan`. -/
def currentRSI (closes : List ℚ) : EF :=
  if closes.length < 14 then .nan
  else EF.hundredSub (EF.hundredDiv (EF.onePlus (EF.divQ (avgGain closes) (avgLoss closes))))

/-- The quote/indicator snapshot returned by a successful `get_realtime_data`
(app.py lines 60-66). -/
structure Snapshot where
  price : ℚ
  change_amount : ℚ
  change_pct : ℚ
  rsi : EF
  currency : String
deriving DecidableEq

/-- Message of Python's `ZeroDivisionError` on float division, the exception
raised at app.py line 45 when `prev_close` is zero and stringified by the
blanket handler at line 68. -/
def divByZeroMessage : String :=
  "float division by zero"

/-- The empty-history message of app.py line 50. -/
def noDataMessage : String :=
  "找不到數據"

/-- `get_realtime_data` (app.py lines 34-68) with the provider's answers made
explicit: current price, previous close and currency from `fast_info`/`info`,
and the 3-month close history.  The change computation at line 45 runs before
the history is examined, so a zero previous close raises first and is caught
by the blanket handler; an empty history then returns the no-data error. -/
def get_realtime_data (price prev_close : ℚ) (currency : String) (hist : List ℚ) :
    Except String Snapshot :=
  if prev_close = 0 then .error divByZeroMessage
  else if hist = [] then .error noDataMessage
  else .ok { price := price
           , change_amount := price - prev_close
           , change_pct := (price - prev_close) / prev_close * 100
           , rsi := currentRSI hist
           , currency := currency }

/-- The fixed macro-focus placeholder of app.py line 73. -/
def macroFocusMessage : String :=
  "無特定國際新聞，請專注於技術面與宏觀經濟分析。"

/-- The fixed no-recent-news message of app.py line 79. -/
def noNewsMessage : String :=
  "近期無重大新聞。"

/-- The fixed news-unavailable message of app.py line 81. -/
def newsFailMessage : String :=
  "無法取得新聞。"

/-- `get_market_news` (app.py lines 70-81) with the provider's answer made
explicit (`resp`: raised error or headline list).  Returns the digest together
with a flag recording whether the news provider was consulted at all: the
`.TW`-suffix / gold-future guard at line 72 returns before any network call. -/
def get_market_news (ticker : String) (resp : Except String (List String)) :
    String × Bool :=
  if endswith ticker (".TW") || ticker == ("GC=F") then (macroFocusMessage, false)
  else
    match resp with
    | .error _ => (newsFailMessage, true)
    | .ok items =>
      let formatted := (items.take 3).map (fun n => ("- ") ++ n)
      (if formatted.isEmpty then noNewsMessage else String.intercalate ("\n") formatted, true)

/-- The declared model priority list of app.py lines 85-88. -/
def model_priority : List String :=
  [("models/gemini-3-pro-preview"), ("models/gemini-2.5-flash")]

/-- The role string selected by asset type (app.py lines 90-92). -/
def roleFor (asset_type : String) : String :=
  if asset_type == ("Taiwan Stock") then "台股資深分析師 (熟悉外資與台幣匯率)"
  else if asset_type == ("Commodity/Crypto") then "大宗商品與加密貨幣專家"
  else "華爾街經理人"

/-- Python `f"x:.2f"` formatting of a nonnegative rational: two decimal
places. -/
def format2abs (q : ℚ) : String :=
  let n : ℤ := round (q * 100)
  let whole : ℤ := n / 100
  let frac : ℤ := n % 100
  toString whole ++ ("." ++ (if frac < 10 then ("0") ++ toString frac else toString frac))

/-- Python `f"x:.2f"` formatting of a finite value (sign split off; ties in
rounding are not exercised by any claim). -/
def format2 (q : ℚ) : String :=
  if q < 0 then ("-") ++ format2abs (-q) else format2abs q

/-- Rendering of an extended value by Python float formatting: `f"x:.2f"`
prints `nan` for a NaN and `inf` for an infinity. -/
def formatEF : EF → String
  | .fin q => format2 q
  | .inf => "inf"
  | .neginf => "-inf"
  | .nan => "nan"

/-- The prompt rendered by `ask_gemini` (app.py lines 94-109), embedding the
role, symbol, 2-decimal formatted price / change / RSI, and the news digest. -/
def buildPrompt (ticker : String) (data : Snapshot) (news : String) (asset_type : String) :
    String :=
  ("\n    你是 ") ++ roleFor asset_type ++ ("。請用繁體中文分析 ") ++ ticker ++
  ("。\n    \n    【即時數據】\n    - 現價：") ++ format2 data.price ++ (" ") ++ data.currency ++
  ("\n    - 漲跌：") ++ format2 data.change_amount ++ (" (") ++ format2 data.change_pct ++
  ("%)\n    - RSI指標：") ++ formatEF data.rsi ++
  ("\n    \n    【近期新聞】\n    ") ++ news ++
  ("\n    \n    請以手機易讀的格式簡潔回答：\n    1. **盤勢判讀**：今日漲跌的意義？趨勢是強勢還是疲弱？\n    2. **技術風險**：RSI (") ++
  formatEF data.rsi ++ (") 是否過熱或背離？\n    3. **操作建議**：積極者與保守者的操作區間。\n    ")

/-- The fixed exhaustion message of app.py line 124. -/
def busyMessage : String :=
  "❌ 系統忙碌中：所有 AI 模型目前皆無法回應，請稍後再試。"

/-- The fallback loop of app.py lines 112-124 over an ordered list of
backends, each a function from the prompt to `Option String` (`none` = the
call raised).  Returns the advisory text together with the number of
candidates actually invoked: the loop returns the first success immediately
and falls through to the busy message when every candidate fails. -/
def runFallback (prompt : String) : List (String → Option String) → String × ℕ
  | [] => (busyMessage, 0)
  | b :: rest =>
    match b prompt with
    | some t => (t, 1)
    | none =>
      let r := runFallback prompt rest
      (r.1, r.2 + 1)

/-- `ask_gemini` (app.py lines 83-124): render the prompt, then try the
backends in declared order. -/
def ask_gemini (ticker : String) (data : Snapshot) (news : String) (asset_type : String)
    (backends : List (String → Option String)) : String × ℕ :=
  runFallback (buildPrompt ticker data news asset_type) backends

/-- Observable outcome of one submitted analysis (app.py lines 211-245):
the top-level error shown (if any), whether the news retriever and the model
fallback were invoked, and the advisory text produced. -/
structure RunOutcome where
  errorShown : Option String
  newsCalled : Bool
  modelCalled : Bool
  advisory : Option String
deriving DecidableEq

/-- The `if submitted:` handler (app.py lines 211-245): normalize the ticker
(`upper().strip()`, line 148), classify, fetch quote + indicator; on a fetch
error show `發生錯誤: ...` and stop; otherwise run the news retriever and the
model fallback. -/
def runSubmitted (ticker : String) (price prev_close : ℚ) (currency : String)
    (hist : List ℚ) (newsResp : Except String (List String))
    (backends : List (String → Option String)) : RunOutcome :=
  let ticker_clean := pyStrip (pyUpper ticker)
  let asset_type := get_asset_type ticker_clean
  match get_realtime_data price prev_close currency hist with
  | .error e =>
    { errorShown := some (("發生錯誤: ") ++ e), newsCalled := false
    , modelCalled := false, advisory := none }
  | .ok data =>
    let news := (get_market_news ticker_clean newsResp).1
    { errorShown := none, newsCalled := true, modelCalled := true
    , advisory := some (ask_gemini ticker_clean data news asset_type backends).1 }

/-- C4: the classifier is a total function of the symbol string alone; a
symbol ending in one of the two Taiwan suffixes maps to Taiwan Stock, an
other symbol in the fixed commodity/crypto list maps to Commodity/Crypto,
and every remaining symbol maps to US Stock/Global — in that order, first
match wins. -/
theorem classify_spec (t : String) :
    (endswith t (".TW") = true ∨ endswith t (".TWO") = true →
      get_asset_type t = "Taiwan Stock")
  ∧ (endswith t (".TW") = false → endswith t (".TWO") = false →
      commodity_list.contains t = true → get_asset_type t = "Commodity/Crypto")
  ∧ (endswith t (".TW") = false → endswith t (".TWO") = false →
      commodity_list.contains t = false → get_asset_type t = "US Stock/Global") := by
  refine ⟨?_, ?_, ?_⟩
  · rintro (h | h) <;> simp [get_asset_type, h]
  · intro h1 h2 h3
    simp at h3
    simp [get_asset_type, h1, h2, h3]
  · intro h1 h2 h3
    simp at h3
    simp [get_asset_type, h1, h2, h3]

/-- C4 witness: the Taiwan flagship symbol classifies as Taiwan Stock. -/
theorem classify_spec_witness : get_asset_type ("2330.TW") = "Taiwan Stock" :=
  (classify_spec ("2330.TW")).1 (Or.inl (by decide))

/-- C2 counterexample: the symbol 6488.TWO carries the second recognized
Taiwan suffix, so it classifies as Taiwan Stock, yet `get_market_news` only
tests the `.TW` suffix and therefore does consult the news provider for it
instead of returning the macro-focus placeholder. -/
theorem news_taiwan_skip_counterexample :
    get_asset_type ("6488.TWO") = "Taiwan Stock"
  ∧ (get_market_news ("6488.TWO") (Except.ok [("headline")])).2 = true
  ∧ (get_market_news ("6488.TWO") (Except.ok [("headline")])).1 = "- headline" := by
  refine ⟨by decide, by decide, ?_⟩
  rfl

/-- C2 amended: for every symbol ending in the `.TW` suffix, and for the
gold-future ticker GC=F, the news retriever returns the fixed macro-focus
placeholder without consulting the news provider.  (Symbols carrying the
other Taiwan suffix `.TWO` do not skip the provider call.) -/
theorem news_skip_amended (t : String) (resp : Except String (List String))
    (h : endswith t (".TW") = true ∨ t = "GC=F") :
    get_market_news t resp = (macroFocusMessage, false) := by
  rcases h with h | h
  · simp [get_market_news, h]
  · subst h
    simp [get_market_news]

/-- C2 amended witness: the TaiwanEquity symbol 2330.TW gets the placeholder
with no provider call. -/
theorem news_skip_amended_witness :
    get_market_news ("2330.TW") (Except.ok []) = (macroFocusMessage, false) :=
  news_skip_amended ("2330.TW") (Except.ok []) (Or.inl (by decide))

/-- C9: for a symbol that reaches the provider, the news retriever is total
(never raises): a raised provider error yields the fixed unavailable message,
an empty item list yields the fixed no-recent-news message, and a non-empty
list yields the first (at most) 3 headlines as bulleted lines. -/
theorem news_digest_spec (t : String) (resp : Except String (List String))
    (h1 : endswith t (".TW") = false) (h2 : (t == ("GC=F")) = false) :
    (∀ e, resp = .error e → get_market_news t resp = (newsFailMessage, true))
  ∧ (resp = .ok [] → get_market_news t resp = (noNewsMessage, true))
  ∧ (∀ items, resp = .ok items → items ≠ [] →
      get_market_news t resp =
        (String.intercalate ("\n") ((items.take 3).map (fun n => ("- ") ++ n)), true)
      ∧ ((items.take 3).map (fun n => ("- ") ++ n)).length ≤ 3) := by
  refine ⟨?_, ?_, ?_⟩
  · rintro e rfl
    simp [get_market_news, h1, h2]
  · rintro rfl
    simp [get_market_news, h1, h2]
  · rintro items rfl hne
    have hfne : ((items.take 3).map (fun n => ("- ") ++ n)).isEmpty = false := by
      simp [List.isEmpty_eq_false, hne]
    constructor
    · simp [get_market_news, h1, h2, hfne]
      intro h
      exact absurd h hne
    · simp [List.length_take]

/-- C9 witness: a four-headline response is cut to three bulleted lines, an
empty response and a raised provider error yield their fixed messages. -/
theorem news_digest_spec_witness :
    get_market_news ("AAPL") (Except.ok [("a"), ("b"), ("c"), ("d")]) = ("- a\n- b\n- c", true)
  ∧ get_market_news ("AAPL") (Except.ok []) = (noNewsMessage, true)
  ∧ get_market_news ("AAPL") (Except.error ("boom")) = (newsFailMessage, true) := by
  have h := news_digest_spec ("AAPL") (Except.ok [("a"), ("b"), ("c"), ("d")])
    (by decide) (by decide)
  have h0 := news_digest_spec ("AAPL") (Except.ok []) (by decide) (by decide)
  have he := news_digest_spec ("AAPL") (Except.error ("boom")) (by decide) (by decide)
  exact ⟨((h.2.2 _ rfl (by simp)).1).trans (by rfl), h0.2.1 rfl, he.1 _ rfl⟩

/-- The fallback loop returns the first succeeding candidate's text and the
count of candidates invoked up to it. -/
theorem runFallback_first_success (p : String) (pre post : List (String → Option String))
    (b : String → Option String) (t : String)
    (hpre : ∀ g ∈ pre, g p = none) (hb : b p = some t) :
    runFallback p (pre ++ b :: post) = (t, pre.length + 1) := by
  induction pre with
  | nil => simp [runFallback, hb]
  | cons g rest ih =>
    have hg : g p = none := hpre g (by simp)
    have ih2 := ih (fun x hx => hpre x (by simp [hx]))
    simp [runFallback, hg, ih2]

/-- When every candidate fails, the fallback loop invokes all of them and
returns the fixed busy message. -/
theorem runFallback_all_fail (p : String) (l : List (String → Option String))
    (h : ∀ g ∈ l, g p = none) :
    runFallback p l = (busyMessage, l.length) := by
  induction l with
  | nil => simp [runFallback]
  | cons g rest ih =>
    have hg : g p = none := h g (by simp)
    have ih2 := ih (fun x hx => h x (by simp [hx]))
    simp [runFallback, hg, ih2]

/-- C1: the fallback protocol of `ask_gemini`.  If candidates 1..k-1 fail on
the rendered prompt and candidate k succeeds, the result is candidate k's
response text, exactly k candidates are invoked (each at most once, the ones
after k never); if every candidate fails, the result is the fixed busy
message after exactly one attempt per candidate, with nothing raised. -/
theorem fallback_protocol (ticker : String) (data : Snapshot) (news asset_type : String)
    (pre post : List (String → Option String)) (b : String → Option String) (t : String)
    (hpre : ∀ g ∈ pre, g (buildPrompt ticker data news asset_type) = none)
    (hb : b (buildPrompt ticker data news asset_type) = some t) :
    ask_gemini ticker data news asset_type (pre ++ b :: post) = (t, pre.length + 1)
  ∧ ∀ l : List (String → Option String),
      (∀ g ∈ l, g (buildPrompt ticker data news asset_type) = none) →
      ask_gemini ticker data news asset_type l = (busyMessage, l.length) := by
  exact ⟨runFallback_first_success _ pre post b t hpre hb,
    fun l hl => runFallback_all_fail _ l hl⟩

/-- C1 witness: with a failing first backend, a succeeding second and an
untried third, the advisory is the second backend's text after two attempts;
with two failing backends the busy message is returned after two attempts. -/
theorem fallback_protocol_witness :
    ask_gemini ("NVDA") ⟨100, 1, 1, EF.fin 50, ("USD")⟩ ("news") ("US Stock/Global")
      [fun _ => none, fun _ => some ("ok"), fun _ => some ("later")] = ("ok", 2)
  ∧ ask_gemini ("NVDA") ⟨100, 1, 1, EF.fin 50, ("USD")⟩ ("news") ("US Stock/Global")
      [fun _ => none, fun _ => none] = (busyMessage, 2) := by
  have h := fallback_protocol ("NVDA") ⟨100, 1, 1, EF.fin 50, ("USD")⟩ ("news")
    ("US Stock/Global") [fun _ => none] [fun _ => some ("later")]
    (fun _ => some ("ok")) ("ok") (by simp) rfl
  exact ⟨h.1, h.2 [fun _ => none, fun _ => none] (by simp)⟩

/-- C3: when the quote provider returns an empty history (and the change
computation itself does not raise), the submitted analysis aborts with the
no-data error shown as a top-level error, and neither the news retriever nor
any model backend is invoked. -/
theorem empty_history_aborts (ticker : String) (price prev_close : ℚ) (currency : String)
    (newsResp : Except String (List String)) (backends : List (String → Option String))
    (h : prev_close ≠ 0) :
    runSubmitted ticker price prev_close currency [] newsResp backends =
      { errorShown := some (("發生錯誤: ") ++ noDataMessage), newsCalled := false
      , modelCalled := false, advisory := none } := by
  simp [runSubmitted, get_realtime_data, h]

/-- C3 witness: an empty history for FAKE.TW aborts before news or models. -/
theorem empty_history_aborts_witness :
    runSubmitted ("FAKE.TW") 100 99 ("USD") [] (Except.ok []) [] =
      { errorShown := some (("發生錯誤: ") ++ noDataMessage), newsCalled := false
      , modelCalled := false, advisory := none } :=
  empty_history_aborts ("FAKE.TW") 100 99 ("USD") (Except.ok []) [] (by norm_num)

/-- C7: for any nonzero previous close and non-empty history, the snapshot
satisfies change_amount = price - prev_close and
change_pct = (price - prev_close) / prev_close * 100 exactly. -/
theorem change_fields_exact (price prev_close : ℚ) (currency : String) (c : ℚ)
    (cs : List ℚ) (h : prev_close ≠ 0) :
    get_realtime_data price prev_close currency (c :: cs) =
      .ok { price := price, change_amount := price - prev_close
          , change_pct := (price - prev_close) / prev_close * 100
          , rsi := currentRSI (c :: cs), currency := currency } := by
  simp [get_realtime_data, h]

/-- C7 witness: previous close 150 and price 153 give change 3 and 2 percent. -/
theorem change_fields_exact_witness :
    get_realtime_data 153 150 ("USD") [150, 153] =
      .ok { price := 153, change_amount := 3, change_pct := 2
          , rsi := currentRSI [150, 153], currency := ("USD") } := by
  rw [change_fields_exact 153 150 ("USD") 150 [153] (by norm_num)]
  norm_num

/-- C10: a zero previous close makes the change computation raise before the
history is even examined; the blanket handler turns it into the fetch-error
result, so no snapshot (in particular no infinite change percentage) is ever
produced for this input. -/
theorem zero_prev_close_fetch_error (price : ℚ) (currency : String) (hist : List ℚ) :
    get_realtime_data price 0 currency hist = .error divByZeroMessage := by
  simp [get_realtime_data]

/-- A list of nonnegative rationals with one positive member has positive sum. -/
theorem list_sum_pos_of_mem (l : List ℚ) (h0 : ∀ x ∈ l, 0 ≤ x)
    (hex : ∃ x ∈ l, 0 < x) : 0 < l.sum := by
  induction l with
  | nil => simp at hex
  | cons a rest ih =>
    rcases hex with ⟨x, hx, hxpos⟩
    rcases List.mem_cons.mp hx with rfl | hmem
    · have hr : 0 ≤ rest.sum := List.sum_nonneg (fun y hy => h0 y (by simp [hy]))
      simp only [List.sum_cons]
      linarith
    · have ha : 0 ≤ a := h0 a (by simp)
      have hr := ih (fun y hy => h0 y (by simp [hy])) ⟨x, hmem, hxpos⟩
      simp only [List.sum_cons]
      linarith

/-- Every element of the gain series is nonnegative. -/
theorem gainSeries_nonneg (closes : List ℚ) : ∀ x ∈ gainSeries closes, 0 ≤ x := by
  intro x hx
  simp [gainSeries] at hx
  rcases hx with rfl | ⟨d, _, rfl⟩
  · exact le_refl 0
  · exact le_max_right d 0

/-- C5: if the trailing 14 rolling-window entries show no loss and at least
one gain, the RSI evaluates to the saturation value 100 (a finite numeric
result, neither an error nor NaN). -/
theorem rsi_saturates_at_100 (closes : List ℚ)
    (hlen : 14 ≤ closes.length)
    (hloss : ∀ x ∈ last14 (lossSeries closes), x = 0)
    (hgain : ∃ x ∈ last14 (gainSeries closes), 0 < x) :
    currentRSI closes = EF.fin 100 := by
  have hl0 : avgLoss closes = 0 := by
    unfold avgLoss
    rw [List.sum_eq_zero hloss]
    norm_num
  have hg0 : 0 < avgGain closes := by
    unfold avgGain
    have hnn : ∀ x ∈ last14 (gainSeries closes), 0 ≤ x := fun x hx =>
      gainSeries_nonneg closes x (List.mem_of_mem_drop hx)
    have hs := list_sum_pos_of_mem _ hnn hgain
    positivity
  unfold currentRSI
  rw [if_neg (by omega)]
  rw [hl0]
  unfold EF.divQ
  rw [if_pos rfl, if_neg hg0.ne', if_pos hg0]
  norm_num [EF.onePlus, EF.hundredDiv, EF.hundredSub]

/-- C5 witness: a strictly rising 15-day history saturates the RSI at 100. -/
theorem rsi_saturates_at_100_witness :
    currentRSI [1, 2, 3, 4, 5, 6, 7, 8, 9, 10, 11, 12, 13, 14, 15] = EF.fin 100 :=
  rsi_saturates_at_100 [1, 2, 3, 4, 5, 6, 7, 8, 9, 10, 11, 12, 13, 14, 15]
    (by simp)
    (by norm_num [last14, lossSeries, diffs])
    (by norm_num [last14, gainSeries, diffs])

/-- Scaling every close by `c` scales every day-over-day difference by `c`. -/
theorem diffs_map_mul (c : ℚ) (l : List ℚ) :
    diffs (l.map (fun x => c * x)) = (diffs l).map (fun x => c * x) := by
  induction l with
  | nil => simp [diffs]
  | cons a rest ih =>
    cases rest with
    | nil => simp [diffs]
    | cons b rest2 =>
      simp only [List.map_cons] at ih
      simp [diffs, mul_sub, ih]

/-- Scaling the closes by a nonnegative `c` scales the gain series by `c`. -/
theorem gainSeries_map_mul (c : ℚ) (hc : 0 ≤ c) (l : List ℚ) :
    gainSeries (l.map (fun x => c * x)) = (gainSeries l).map (fun x => c * x) := by
  have hmax : (fun d => max (c * d) 0) = (fun d => c * max d 0) := by
    funext d
    rw [mul_max_of_nonneg d 0 hc, mul_zero]
  simp only [gainSeries, diffs_map_mul, List.map_cons, List.map_map, mul_zero]
  rw [Function.comp_def, Function.comp_def, hmax]

/-- Scaling the closes by a nonnegative `c` scales the loss series by `c`. -/
theorem lossSeries_map_mul (c : ℚ) (hc : 0 ≤ c) (l : List ℚ) :
    lossSeries (l.map (fun x => c * x)) = (lossSeries l).map (fun x => c * x) := by
  have hmax : (fun d => max (-(c * d)) 0) = (fun d => c * max (-d) 0) := by
    funext d
    rw [mul_max_of_nonneg (-d) 0 hc, mul_zero, mul_neg]
  simp only [lossSeries, diffs_map_mul, List.map_cons, List.map_map, mul_zero]
  rw [Function.comp_def, Function.comp_def, hmax]

/-- The trailing window commutes with an elementwise map. -/
theorem last14_map (f : ℚ → ℚ) (xs : List ℚ) :
    last14 (xs.map f) = (last14 xs).map f := by
  simp [last14, List.map_drop]

/-- Sum of an elementwise-scaled list. -/
theorem list_sum_map_mul (c : ℚ) (xs : List ℚ) :
    (xs.map (fun x => c * x)).sum = c * xs.sum := by
  induction xs with
  | nil => simp
  | cons a rest ih => simp [ih, mul_add]

/-- Scaling the closes scales the trailing average gain. -/
theorem avgGain_map_mul (c : ℚ) (hc : 0 ≤ c) (l : List ℚ) :
    avgGain (l.map (fun x => c * x)) = c * avgGain l := by
  unfold avgGain
  rw [gainSeries_map_mul c hc, last14_map, list_sum_map_mul, mul_div_assoc]

/-- Scaling the closes scales the trailing average loss. -/
theorem avgLoss_map_mul (c : ℚ) (hc : 0 ≤ c) (l : List ℚ) :
    avgLoss (l.map (fun x => c * x)) = c * avgLoss l := by
  unfold avgLoss
  rw [lossSeries_map_mul c hc, last14_map, list_sum_map_mul, mul_div_assoc]

/-- The numpy-style gain/loss quotient is invariant under scaling numerator
and denominator by the same positive constant. -/
theorem divQ_mul_left (c g l : ℚ) (hc : 0 < c) :
    EF.divQ (c * g) (c * l) = EF.divQ g l := by
  unfold EF.divQ
  rcases eq_or_ne l 0 with rfl | hl
  · rw [mul_zero, if_pos rfl, if_pos rfl]
    rcases eq_or_ne g 0 with rfl | hg
    · rw [mul_zero]
    · rw [if_neg (mul_ne_zero hc.ne' hg), if_neg hg]
      rcases hg.lt_or_lt with hgn | hgp
      · rw [if_neg (not_lt.mpr (mul_nonpos_of_nonneg_of_nonpos hc.le hgn.le)),
            if_neg (not_lt.mpr hgn.le)]
      · rw [if_pos (mul_pos hc hgp), if_pos hgp]
  · have hcl : c * l ≠ 0 := mul_ne_zero hc.ne' hl
    rw [if_neg hcl, if_neg hl, mul_div_mul_left g l hc.ne']

/-- C8: the RSI taken from a price history is invariant under multiplying
every price by the same positive constant. -/
theorem rsi_scale_invariant (closes : List ℚ) (c : ℚ) (hc : 0 < c) :
    currentRSI (closes.map (fun x => c * x)) = currentRSI closes := by
  unfold currentRSI
  rw [List.length_map]
  by_cases h : closes.length < 14
  · rw [if_pos h, if_pos h]
  · rw [if_neg h, if_neg h, avgGain_map_mul c hc.le, avgLoss_map_mul c hc.le,
        divQ_mul_left _ _ _ hc]

/-- C8 witness: doubling a 15-day history leaves its RSI unchanged. -/
theorem rsi_scale_invariant_witness :
    currentRSI (([3, 1, 4, 1, 5, 9, 2, 6, 5, 3, 5, 8, 9, 7, 9] : List ℚ).map (fun x => 2 * x))
      = currentRSI [3, 1, 4, 1, 5, 9, 2, 6, 5, 3, 5, 8, 9, 7, 9] :=
  rsi_scale_invariant [3, 1, 4, 1, 5, 9, 2, 6, 5, 3, 5, 8, 9, 7, 9] 2 (by norm_num)

/-- A 3-month history of fifteen identical closes: every day-over-day
difference is zero, so both 14-period averages vanish. -/
def flatHistory : List ℚ :=
  [100, 100, 100, 100, 100, 100, 100, 100, 100, 100, 100, 100, 100, 100, 100]

/-- C6: on the zero-gain/zero-loss degenerate input the code computes `0/0`,
so the RSI is NaN; nothing detects it, and the 2-decimal formatting used for
the dashboard metric and the model prompt renders the literal text `nan`
instead of a labeled indeterminate sentinel.  The snapshot is returned as a
success carrying the NaN. -/
theorem rsi_nan_propagates_unhandled :
    currentRSI flatHistory = EF.nan
  ∧ formatEF (currentRSI flatHistory) = "nan"
  ∧ get_realtime_data 100 100 ("USD") flatHistory =
      .ok { price := 100, change_amount := 0, change_pct := 0
          , rsi := EF.nan, currency := ("USD") } := by
  have h : currentRSI flatHistory = EF.nan := by
    norm_num [flatHistory, currentRSI, avgGain, avgLoss, gainSeries, lossSeries, diffs,
      last14, EF.divQ, EF.onePlus, EF.hundredDiv, EF.hundredSub]
  refine ⟨h, by rw [h]; rfl, ?_⟩
  rw [get_realtime_data, if_neg (by norm_num), if_neg (by simp [flatHistory]), h]
  norm_num
